import Mathlib

/-!
Verification of the transaction risk evaluator of the ai-fraud-backend
repository, embedded from backend/app/main.py, function
generate_dummy_transactions (lines 148-181).  Python floats are modelled as
exact rationals; Python round(x, 2) is modelled by rounding x * 100 to the
nearest integer (the only divergence from Python, its tie-to-even rule,
matters only at exact midpoints, which no statement below touches).  The
two random draws feeding one evaluation, the uniform jitter in [-10, 10]
and the Bernoulli anomaly trial, enter as explicit parameters, matching
the substitutable deterministic random source of the interface.
-/

namespace AiFraud

/-- The risk-relevant fields of one generated transaction record
(main.py lines 169-181). -/
structure Transaction where
  amount : ℚ
  risk_score : ℚ
  risk_label : String
  blocked : Bool
  verification_required : Bool
  verification_status : String
  reasons : String
deriving Repr, DecidableEq

/-- Baseline average of prior amounts, main.py line 150:
`avg_amount = (sum(p.amount for p in past) / len(past)) if past else 200.0`. -/
def avg_amount (past : List ℚ) : ℚ :=
  if past.isEmpty then 200 else past.sum / past.length

/-- Base risk, main.py line 158:
`base_risk = min(95.0, max(5.0, (amount / max(1.0, avg_amount)) * 20 + random.uniform(-10, 10)))`. -/
def base_risk (avg amount jitter : ℚ) : ℚ :=
  min 95 (max 5 (amount / max 1 avg * 20 + jitter))

/-- Base risk after the anomaly branch, main.py lines 160-162:
`if anomaly < 0.05: base_risk += 20`.  The Bernoulli trial
`random.random() < 0.05` enters as the Boolean `anomaly`. -/
def boosted_risk (avg amount jitter : ℚ) (anomaly : Bool) : ℚ :=
  base_risk avg amount jitter + (if anomaly then 20 else 0)

/-- Rounding to two decimal places, modelling Python round(x, 2). -/
def round2 (x : ℚ) : ℚ := (round (x * 100) : ℤ) / 100

/-- Final score, main.py line 163: `risk_score = round(min(100.0, base_risk), 2)`. -/
def risk_score (avg amount jitter : ℚ) (anomaly : Bool) : ℚ :=
  round2 (min 100 (boosted_risk avg amount jitter anomaly))

/-- Label, main.py line 165:
`risk_label = "Safe" if risk_score < 70 else "Suspicious" if risk_score <= 90 else "High Risk"`. -/
def risk_label (s : ℚ) : String :=
  if s < 70 then "Safe" else if s ≤ 90 then "Suspicious" else "High Risk"

/-- main.py line 166: `blocked = risk_score > 90`. -/
def blocked (s : ℚ) : Bool := decide (90 < s)

/-- main.py line 167: `verification_required = 70 < risk_score <= 90`. -/
def verification_required (s : ℚ) : Bool := decide (70 < s ∧ s ≤ 90)

/-- main.py line 179: `"pending" if verification_required else "none"`. -/
def verification_status (vr : Bool) : String := if vr then "pending" else "none"

/-- main.py line 180:
the fixed placeholder list when risk_score > 75, else the empty list. -/
def reasons (s : ℚ) : String :=
  if 75 < s then "[\x27Large amount\x27, \x27Unusual merchant\x27]" else "[]"

/-- One evaluator invocation: from the account history, the proposed amount
and the two random draws, build the stored record (main.py lines 148-181). -/
def evalTransaction (past : List ℚ) (amount jitter : ℚ) (anomaly : Bool) :
    Transaction :=
  let s := risk_score (avg_amount past) amount jitter anomaly
  { amount := amount
    risk_score := s
    risk_label := risk_label s
    blocked := blocked s
    verification_required := verification_required s
    verification_status := verification_status (verification_required s)
    reasons := reasons s }

/-- Rounding to two decimals never drops below an integer lower bound. -/
lemma le_round2 (n : ℤ) (x : ℚ) (h : (n : ℚ) ≤ x) : (n : ℚ) ≤ round2 x := by
  have h1 : (n * 100 : ℤ) ≤ round (x * 100) := by
    rw [round_eq]
    refine Int.le_floor.mpr ?_
    push_cast
    linarith
  have h2 : ((n : ℚ) * 100) ≤ ((round (x * 100) : ℤ) : ℚ) := by exact_mod_cast h1
  unfold round2
  rw [le_div_iff₀ (by norm_num : (0:ℚ) < 100)]
  exact h2

/-- Rounding to two decimals never exceeds an integer upper bound. -/
lemma round2_le (n : ℤ) (x : ℚ) (h : x ≤ (n : ℚ)) : round2 x ≤ (n : ℚ) := by
  have h2 : ((round (x * 100) : ℤ) : ℚ) ≤ x * 100 + 1 / 2 := round_le_add_half _
  have h3 : ((round (x * 100) : ℤ) : ℚ) < ((n * 100 : ℤ) : ℚ) + 1 := by
    push_cast
    linarith
  have h4 : round (x * 100) ≤ n * 100 :=
    Int.lt_add_one_iff.mp (by exact_mod_cast h3)
  unfold round2
  rw [div_le_iff₀ (by norm_num : (0:ℚ) < 100)]
  exact_mod_cast h4

/-- The clamp of main.py line 158 keeps the base risk inside [5, 95]. -/
lemma base_risk_mem (avg amount jitter : ℚ) :
    5 ≤ base_risk avg amount jitter ∧ base_risk avg amount jitter ≤ 95 := by
  unfold base_risk
  exact ⟨le_min (by norm_num) (le_max_left _ _), min_le_left _ _⟩

/-- The final score always lies in [5, 100]. -/
lemma risk_score_mem (avg amount jitter : ℚ) (anomaly : Bool) :
    5 ≤ risk_score avg amount jitter anomaly ∧
      risk_score avg amount jitter anomaly ≤ 100 := by
  have hb := base_risk_mem avg amount jitter
  have h5 : (5 : ℚ) ≤ min 100 (boosted_risk avg amount jitter anomaly) := by
    unfold boosted_risk
    refine le_min (by norm_num) ?_
    cases anomaly <;> simp <;> linarith [hb.1]
  have h100 : min 100 (boosted_risk avg amount jitter anomaly) ≤ 100 :=
    min_le_left _ _
  refine ⟨?_, ?_⟩
  · have := le_round2 5 (min 100 (boosted_risk avg amount jitter anomaly))
      (by exact_mod_cast h5)
    exact_mod_cast this
  · have := round2_le 100 (min 100 (boosted_risk avg amount jitter anomaly))
      (by exact_mod_cast h100)
    exact_mod_cast this

/-- The final score is an integer number of hundredths. -/
lemma risk_score_hundredths (avg amount jitter : ℚ) (anomaly : Bool) :
    ∃ m : ℤ, risk_score avg amount jitter anomaly = (m : ℚ) / 100 :=
  ⟨round (min 100 (boosted_risk avg amount jitter anomaly) * 100), rfl⟩

/-- C1: for every transaction produced by the risk evaluator, blocked holds
iff risk_score > 90, verification_required holds iff 70 < risk_score ≤ 90
(so the two are never both true), and verification_status is "pending" iff
verification_required holds, else "none". -/
theorem C1_enforcement_fields (past : List ℚ) (amount jitter : ℚ)
    (anomaly : Bool) :
    ((evalTransaction past amount jitter anomaly).blocked = true ↔
      90 < (evalTransaction past amount jitter anomaly).risk_score) ∧
    ((evalTransaction past amount jitter anomaly).verification_required = true ↔
      (70 < (evalTransaction past amount jitter anomaly).risk_score ∧
        (evalTransaction past amount jitter anomaly).risk_score ≤ 90)) ∧
    (¬ ((evalTransaction past amount jitter anomaly).blocked = true ∧
      (evalTransaction past amount jitter anomaly).verification_required = true)) ∧
    ((evalTransaction past amount jitter anomaly).verification_status = "pending" ↔
      (evalTransaction past amount jitter anomaly).verification_required = true) ∧
    ((evalTransaction past amount jitter anomaly).verification_status = "none" ↔
      (evalTransaction past amount jitter anomaly).verification_required = false) := by
  simp only [evalTransaction, blocked, verification_required, verification_status]
  set s := risk_score (avg_amount past) amount jitter anomaly with hs
  refine ⟨by simp, by simp, ?_, ?_, ?_⟩
  · simp only [decide_eq_true_eq]
    rintro ⟨h1, h2, h3⟩
    linarith
  · by_cases h : 70 < s ∧ s ≤ 90 <;> simp [h]
  · by_cases h : 70 < s ∧ s ≤ 90 <;> simp [h]

/-- C2: every produced risk_score lies in [0, 100] and is an integer number
of hundredths, i.e. rounded to exactly 2 decimal places. -/
theorem C2_score_range_precision (past : List ℚ) (amount jitter : ℚ)
    (anomaly : Bool) :
    0 ≤ (evalTransaction past amount jitter anomaly).risk_score ∧
    (evalTransaction past amount jitter anomaly).risk_score ≤ 100 ∧
    ∃ m : ℤ, (evalTransaction past amount jitter anomaly).risk_score = (m : ℚ) / 100 := by
  have h := risk_score_mem (avg_amount past) amount jitter anomaly
  exact ⟨by simpa [evalTransaction] using le_trans (by norm_num) h.1,
    by simpa [evalTransaction] using h.2,
    by simpa [evalTransaction] using
      risk_score_hundredths (avg_amount past) amount jitter anomaly⟩

/-- C3: the produced risk_label is "Safe" iff risk_score < 70, "Suspicious"
iff 70 ≤ risk_score ≤ 90, and "High Risk" iff risk_score > 90. -/
theorem C3_risk_label_cases (past : List ℚ) (amount jitter : ℚ)
    (anomaly : Bool) :
    ((evalTransaction past amount jitter anomaly).risk_label = "Safe" ↔
      (evalTransaction past amount jitter anomaly).risk_score < 70) ∧
    ((evalTransaction past amount jitter anomaly).risk_label = "Suspicious" ↔
      (70 ≤ (evalTransaction past amount jitter anomaly).risk_score ∧
        (evalTransaction past amount jitter anomaly).risk_score ≤ 90)) ∧
    ((evalTransaction past amount jitter anomaly).risk_label = "High Risk" ↔
      90 < (evalTransaction past amount jitter anomaly).risk_score) := by
  simp only [evalTransaction, risk_label]
  set s := risk_score (avg_amount past) amount jitter anomaly with hs
  split_ifs with h1 h2
  · refine ⟨by simp [h1], ?_, ?_⟩
    · constructor
      · intro h
        exact absurd h (by decide)
      · rintro ⟨h, _⟩
        linarith
    · constructor
      · intro h
        exact absurd h (by decide)
      · intro h
        linarith
  · refine ⟨?_, by simp [not_lt.mp h1, h2], ?_⟩
    · constructor
      · intro h
        exact absurd h (by decide)
      · intro h
        exact absurd h h1
    · constructor
      · intro h
        exact absurd h (by decide)
      · intro h
        linarith
  · refine ⟨?_, ?_, by simp [not_le.mp h2]⟩
    · constructor
      · intro h
        exact absurd h (by decide)
      · intro h
        exact absurd h h1
    · constructor
      · intro h
        exact absurd h (by decide)
      · rintro ⟨_, h⟩
        exact absurd h h2

/-- C4 counterexample: at the concrete input amount 700, empty history,
zero jitter, no anomaly, the evaluator produces risk_score exactly 70, and
the label the source assigns there is "Suspicious", not "Safe" as the claim
states. -/
theorem C4_counterexample :
    (evalTransaction [] 700 0 false).risk_score = 70 ∧
    (evalTransaction [] 700 0 false).risk_label = "Suspicious" ∧
    ¬ (evalTransaction [] 700 0 false).risk_label = "Safe" := by
  norm_num [evalTransaction, risk_score, round2, boosted_risk, base_risk,
    avg_amount, risk_label, round_eq]
  decide

/-- C4 amended: when the evaluator produces risk_score exactly 70, the
assigned risk_label is "Suspicious" (the strict < 70 test for "Safe" fails),
while blocked and verification_required use strict greater-than comparisons
and are both false at 70. -/
theorem C4_boundary_seventy (past : List ℚ) (amount jitter : ℚ)
    (anomaly : Bool)
    (h : (evalTransaction past amount jitter anomaly).risk_score = 70) :
    (evalTransaction past amount jitter anomaly).risk_label = "Suspicious" ∧
    (evalTransaction past amount jitter anomaly).blocked = false ∧
    (evalTransaction past amount jitter anomaly).verification_required = false := by
  simp only [evalTransaction, risk_label, blocked, verification_required] at h ⊢
  rw [h]
  norm_num

/-- C4 witness: the amended statement instantiated at the concrete input
producing risk_score 70. -/
theorem C4_boundary_seventy_witness :
    (evalTransaction [] 700 0 false).risk_label = "Suspicious" ∧
    (evalTransaction [] 700 0 false).blocked = false ∧
    (evalTransaction [] 700 0 false).verification_required = false :=
  C4_boundary_seventy [] 700 0 false (by
    norm_num [evalTransaction, risk_score, round2, boosted_risk, base_risk,
      avg_amount, round_eq])

/-- C5: with no prior transactions the baseline average is exactly 200;
with prior transactions it is the arithmetic mean of their amounts. -/
theorem C5_baseline_average (past : List ℚ) :
    (past = [] → avg_amount past = 200) ∧
    (past ≠ [] → avg_amount past = past.sum / past.length) := by
  unfold avg_amount
  constructor
  · intro h
    simp [h]
  · intro h
    simp [List.isEmpty_iff, h]

/-- C5 witness: the baseline at the empty history and at a concrete
two-element history. -/
theorem C5_baseline_average_witness :
    avg_amount [] = 200 ∧ avg_amount [100, 300] = 200 := by
  refine ⟨(C5_baseline_average []).1 rfl, ?_⟩
  rw [(C5_baseline_average [100, 300]).2 (by decide)]
  norm_num

/-- C6 counterexample: for the positive amount 1/2 equal to the historical
average 1/2, with zero jitter and no anomaly, the base ratio term is 10,
not 20, and the produced risk_score is 10, not 20: the max(1.0, avg) floor
in main.py line 158 breaks the claim for averages below 1. -/
theorem C6_counterexample :
    (0 : ℚ) < 1 / 2 ∧
    avg_amount [(1 : ℚ) / 2] = 1 / 2 ∧
    ((1 : ℚ) / 2) / max 1 ((1 : ℚ) / 2) * 20 = 10 ∧
    base_risk ((1 : ℚ) / 2) ((1 : ℚ) / 2) 0 = 10 ∧
    (evalTransaction [(1 : ℚ) / 2] ((1 : ℚ) / 2) 0 false).risk_score = 10 := by
  norm_num [evalTransaction, risk_score, round2, boosted_risk, base_risk,
    avg_amount, round_eq]

/-- C6 amended: for every amount at least 1 equal to the historical average,
with zero jitter and no anomaly, the base ratio term equals 20, so the
computed score before and after clamping is 20. -/
theorem C6_ratio_term_twenty (amount : ℚ) (h : 1 ≤ amount) :
    amount / max 1 amount * 20 = 20 ∧
    base_risk amount amount 0 = 20 ∧
    risk_score amount amount 0 false = 20 := by
  have hmax : max 1 amount = amount := max_eq_right h
  have hne : amount ≠ 0 := by linarith
  have hr : amount / max 1 amount * 20 = 20 := by
    rw [hmax, div_self hne]
    norm_num
  have hb : base_risk amount amount 0 = 20 := by
    unfold base_risk
    rw [add_zero, hr]
    norm_num
  refine ⟨hr, hb, ?_⟩
  unfold risk_score boosted_risk
  rw [hb]
  norm_num [round2, round_eq]

/-- C6 witness: the amended statement at the spec scenario amount 200. -/
theorem C6_ratio_term_twenty_witness :
    risk_score 200 200 0 false = 20 :=
  (C6_ratio_term_twenty 200 (by norm_num)).2.2

/-- C7: for every average, amount and jitter, the score before the 100-cap
when the anomaly trial fires is exactly 20 greater than with the same
inputs when it does not fire. -/
theorem C7_anomaly_bonus (avg amount jitter : ℚ) :
    boosted_risk avg amount jitter true =
      boosted_risk avg amount jitter false + 20 := by
  simp [boosted_risk]

/-- C8: the reasons field holds the fixed placeholder list iff
risk_score > 75, and the empty list iff risk_score ≤ 75. -/
theorem C8_reasons_threshold (past : List ℚ) (amount jitter : ℚ)
    (anomaly : Bool) :
    ((evalTransaction past amount jitter anomaly).reasons =
        "[\x27Large amount\x27, \x27Unusual merchant\x27]" ↔
      75 < (evalTransaction past amount jitter anomaly).risk_score) ∧
    ((evalTransaction past amount jitter anomaly).reasons = "[]" ↔
      (evalTransaction past amount jitter anomaly).risk_score ≤ 75) := by
  simp only [evalTransaction, reasons]
  set s := risk_score (avg_amount past) amount jitter anomaly with hs
  split_ifs with h
  · refine ⟨by simp [h], ?_⟩
    constructor
    · intro hc
      exact absurd hc (by decide)
    · intro hc
      linarith
  · refine ⟨?_, by simp [not_lt.mp h]⟩
    constructor
    · intro hc
      exact absurd hc (by decide)
    · intro hc
      exact absurd hc h

/-- C9: two evaluator invocations with identical history, amount and
identical random draws (jitter and anomaly trial) produce identical
output records. -/
theorem C9_deterministic (p1 p2 : List ℚ) (a1 a2 j1 j2 : ℚ) (b1 b2 : Bool)
    (hp : p1 = p2) (ha : a1 = a2) (hj : j1 = j2) (hb : b1 = b2) :
    evalTransaction p1 a1 j1 b1 = evalTransaction p2 a2 j2 b2 := by
  subst hp
  subst ha
  subst hj
  subst hb
  rfl

/-- C9 witness: the determinism statement at one concrete invocation pair. -/
theorem C9_deterministic_witness :
    evalTransaction [150] 100 3 false = evalTransaction [150] 100 3 false :=
  C9_deterministic [150] [150] 100 100 3 3 false false rfl rfl rfl rfl

/-- C10: every produced risk_score is at least 5, because the base risk is
clamped to [5, 95] and the anomaly bonus only increases it; a score in
[0, 5) is never produced. -/
theorem C10_score_floor_five (past : List ℚ) (amount jitter : ℚ)
    (anomaly : Bool) :
    5 ≤ (evalTransaction past amount jitter anomaly).risk_score ∧
    ¬ (evalTransaction past amount jitter anomaly).risk_score < 5 := by
  have h := (risk_score_mem (avg_amount past) amount jitter anomaly).1
  exact ⟨by simpa [evalTransaction] using h,
    by simpa [evalTransaction, not_lt] using h⟩

end AiFraud
